import Mathlib

/-!
Shallow embedding of `custom_components/ckw_hass_gs108e/sensor.py`.

The module declares static sensor metadata (descriptors), expands a per-port
template into descriptors at setup time, and defines a sensor entity class
whose cached value is refreshed from the coordinator snapshot.
-/

/-- A Python runtime value as it appears in the polled data snapshot and in
the cached sensor value (`StateType | date | datetime | Decimal`).  `none`
models Python `None`. -/
inductive PyVal where
  | none
  | int (n : Int)
  | str (s : String)
  | bool (b : Bool)
  deriving DecidableEq, Repr

/-- Units of measurement used by the descriptors (`UnitOfInformation.MEGABYTES`,
`UnitOfDataRate.MEGABYTES_PER_SECOND`, `UnitOfTime.SECONDS`, and the raw
string "Mbps" used by `SENSOR_TYPES`). -/
inductive MeasurementUnit where
  | megabytes
  | megabytesPerSecond
  | seconds
  | mbps
  deriving DecidableEq, Repr

/-- `SensorDeviceClass` members referenced by the module. -/
inductive SensorDeviceClass where
  | data_size
  | data_rate
  | duration
  deriving DecidableEq, Repr

/-- `EntityCategory` members referenced by the module. -/
inductive EntityCategory where
  | diagnostic
  deriving DecidableEq, Repr

/-- A log event emitted through `_LOGGER`; the refresh path only ever logs at
debug severity, recording the missing key. -/
inductive LogMsg where
  | debug (key : String)
  deriving DecidableEq, Repr

/-- The decimal digit character for `d` (0..9), as produced by Python string
formatting of an integer. -/
def digitChar : Nat → Char
  | 0 => Char.mk 48 (by decide)
  | 1 => Char.mk 49 (by decide)
  | 2 => Char.mk 50 (by decide)
  | 3 => Char.mk 51 (by decide)
  | 4 => Char.mk 52 (by decide)
  | 5 => Char.mk 53 (by decide)
  | 6 => Char.mk 54 (by decide)
  | 7 => Char.mk 55 (by decide)
  | 8 => Char.mk 56 (by decide)
  | _ => Char.mk 57 (by decide)

/-- Fuel-driven decimal rendering: digits of `n` in most-significant-first
order, prepended to `acc`.  Structural recursion on the fuel keeps the
definition kernel-reducible. -/
def natDecimalGo : Nat → Nat → List Char → List Char
  | 0, _, acc => acc
  | fuel + 1, n, acc =>
    if n < 10 then digitChar n :: acc
    else natDecimalGo fuel (n / 10) (digitChar (n % 10) :: acc)

/-- The decimal digit string of `n`, exactly as Python `str.format` renders a
nonnegative integer. -/
def natDecimal (n : Nat) : List Char :=
  natDecimalGo (n + 1) n []

/-- Python `str(n)` / `"{}".format(n)` for a nonnegative integer. -/
def natToStr (n : Nat) : String :=
  String.mk (natDecimal n)

/-- A Python format string with a single `port` placeholder, split into the
text before and after the placeholder. -/
structure Fmt where
  pre : String
  post : String
  deriving DecidableEq, Repr

/-- `fmt.format(port=p)`: substitute the decimal rendering of `p` for the
placeholder. -/
def Fmt.format (f : Fmt) (p : Nat) : String :=
  f.pre ++ natToStr p ++ f.post

/-- The base `SensorEntityDescription` fields used by `SENSOR_TYPES`. -/
structure SensorEntityDescription where
  key : String
  name : String
  native_unit_of_measurement : Option MeasurementUnit := Option.none
  entity_category : Option EntityCategory := Option.none
  icon : Option String := Option.none
  deriving DecidableEq, Repr

/-- `SENSOR_TYPES`: a dict with the single `link_rate` entry; never read by
`async_setup_entry`. -/
def SENSOR_TYPES : List (String × SensorEntityDescription) :=
  [("link_rate",
    { key := "link_rate"
      name := "link rate"
      native_unit_of_measurement := some MeasurementUnit.mbps
      entity_category := some EntityCategory.diagnostic
      icon := some "mdi:speedometer" })]

/-- `NetgearSensorEntityDescription`: the dataclass describing one sensor,
extending the base description with a value-extraction callable (identity by
default) and an index (0 by default). -/
structure NetgearSensorEntityDescription where
  key : String
  name : String
  entity_category : Option EntityCategory := Option.none
  native_unit_of_measurement : Option MeasurementUnit := Option.none
  device_class : Option SensorDeviceClass := Option.none
  icon : Option String := Option.none
  value : PyVal → PyVal := fun data => data
  index : Nat := 0

/-- `DEVICE_SENSOR_TYPES`: the six fixed device-level descriptors. -/
def DEVICE_SENSOR_TYPES : List NetgearSensorEntityDescription :=
  [{ key := "switch_ip"
     name := "IP Address"
     entity_category := some EntityCategory.diagnostic
     native_unit_of_measurement := Option.none
     device_class := Option.none
     icon := some "mdi:switch" },
   { key := "switch_name"
     name := "Switch Name"
     entity_category := some EntityCategory.diagnostic
     native_unit_of_measurement := Option.none
     device_class := Option.none
     icon := some "mdi:text" },
   { key := "switch_bootloader"
     name := "Switch Bootlader"
     entity_category := some EntityCategory.diagnostic
     native_unit_of_measurement := Option.none
     device_class := Option.none
     icon := some "mdi:text" },
   { key := "switch_firmware"
     name := "Switch Firmware"
     entity_category := some EntityCategory.diagnostic
     native_unit_of_measurement := Option.none
     device_class := Option.none
     icon := some "mdi:text" },
   { key := "switch_serial_number"
     name := "Switch Serial Number"
     entity_category := some EntityCategory.diagnostic
     native_unit_of_measurement := Option.none
     device_class := Option.none
     icon := some "mdi:text" },
   { key := "response_time_s"
     name := "Response Time (seconds)"
     entity_category := some EntityCategory.diagnostic
     native_unit_of_measurement := some MeasurementUnit.seconds
     device_class := some SensorDeviceClass.duration
     icon := some "mdi:clock" }]

/-- One entry of `PORT_TEMPLATE`: the key format string together with the
metadata dict (name format, unit, device class, icon). -/
structure PortTemplateEntry where
  keyFmt : Fmt
  nameFmt : Fmt
  native_unit_of_measurement : MeasurementUnit
  device_class : SensorDeviceClass
  icon : String
  deriving DecidableEq, Repr

/-- `PORT_TEMPLATE`: the five per-port sensor templates, in declaration
order.  Placeholders `port_\x7bport\x7d_...` / `Port \x7bport\x7d ...` are
split into pre/post text. -/
def PORT_TEMPLATE : List PortTemplateEntry :=
  [{ keyFmt := { pre := "port_", post := "_traffic_rx_mbytes" }
     nameFmt := { pre := "Port ", post := " Traffic Received" }
     native_unit_of_measurement := MeasurementUnit.megabytes
     device_class := SensorDeviceClass.data_size
     icon := "mdi:download" },
   { keyFmt := { pre := "port_", post := "_traffic_tx_mbytes" }
     nameFmt := { pre := "Port ", post := " Traffic Transferred" }
     native_unit_of_measurement := MeasurementUnit.megabytes
     device_class := SensorDeviceClass.data_size
     icon := "mdi:upload" },
   { keyFmt := { pre := "port_", post := "_speed_rx_mbytes" }
     nameFmt := { pre := "Port ", post := " Receiving" }
     native_unit_of_measurement := MeasurementUnit.megabytesPerSecond
     device_class := SensorDeviceClass.data_rate
     icon := "mdi:download" },
   { keyFmt := { pre := "port_", post := "_speed_tx_mbytes" }
     nameFmt := { pre := "Port ", post := " Receiving" }
     native_unit_of_measurement := MeasurementUnit.megabytesPerSecond
     device_class := SensorDeviceClass.data_rate
     icon := "mdi:upload" },
   { keyFmt := { pre := "port_", post := "_speed_io_mbytes" }
     nameFmt := { pre := "Port ", post := " Receiving" }
     native_unit_of_measurement := MeasurementUnit.megabytesPerSecond
     device_class := SensorDeviceClass.data_rate
     icon := "mdi:swap-vertical" }]

/-- `PORT_SENSORS`: the hand-written 40-entry per-port descriptor list for
ports 1..8; referenced only by the commented-out loop in
`async_setup_entry`. -/
def PORT_SENSORS : List NetgearSensorEntityDescription :=
  [{ key := "port_1_traffic_rx_mbytes"
     name := "Port 1 Traffic Received"
     native_unit_of_measurement := some MeasurementUnit.megabytes
     device_class := some SensorDeviceClass.data_size
     icon := some "mdi:download" },
   { key := "port_1_traffic_tx_mbytes"
     name := "Port 1 Traffic Transferred"
     native_unit_of_measurement := some MeasurementUnit.megabytes
     device_class := some SensorDeviceClass.data_size
     icon := some "mdi:upload" },
   { key := "port_1_speed_rx_mbytes"
     name := "Port 1 Receiving"
     native_unit_of_measurement := some MeasurementUnit.megabytesPerSecond
     device_class := some SensorDeviceClass.data_rate
     icon := some "mdi:download" },
   { key := "port_1_speed_tx_mbytes"
     name := "Port 1 Transferring"
     native_unit_of_measurement := some MeasurementUnit.megabytesPerSecond
     device_class := some SensorDeviceClass.data_rate
     icon := some "mdi:upload" },
   { key := "port_1_speed_io_mbytes"
     name := "Port 1 IO"
     native_unit_of_measurement := some MeasurementUnit.megabytesPerSecond
     device_class := some SensorDeviceClass.data_rate
     icon := some "mdi:swap-vertical" },
   { key := "port_2_traffic_rx_mbytes"
     name := "Port 2 Traffic Received"
     native_unit_of_measurement := some MeasurementUnit.megabytes
     device_class := some SensorDeviceClass.data_size
     icon := some "mdi:download" },
   { key := "port_2_traffic_tx_mbytes"
     name := "Port 2 Traffic Transferred"
     native_unit_of_measurement := some MeasurementUnit.megabytes
     device_class := some SensorDeviceClass.data_size
     icon := some "mdi:upload" },
   { key := "port_2_speed_rx_mbytes"
     name := "Port 2 Receiving"
     native_unit_of_measurement := some MeasurementUnit.megabytesPerSecond
     device_class := some SensorDeviceClass.data_rate
     icon := some "mdi:download" },
   { key := "port_2_speed_tx_mbytes"
     name := "Port 2 Transferring"
     native_unit_of_measurement := some MeasurementUnit.megabytesPerSecond
     device_class := some SensorDeviceClass.data_rate
     icon := some "mdi:upload" },
   { key := "port_2_speed_io_mbytes"
     name := "Port 2 IO"
     native_unit_of_measurement := some MeasurementUnit.megabytesPerSecond
     device_class := some SensorDeviceClass.data_rate
     icon := some "mdi:swap-vertical" },
   { key := "port_3_traffic_rx_mbytes"
     name := "Port 3 Traffic Received"
     native_unit_of_measurement := some MeasurementUnit.megabytes
     device_class := some SensorDeviceClass.data_size
     icon := some "mdi:download" },
   { key := "port_3_traffic_tx_mbytes"
     name := "Port 3 Traffic Transferred"
     native_unit_of_measurement := some MeasurementUnit.megabytes
     device_class := some SensorDeviceClass.data_size
     icon := some "mdi:upload" },
   { key := "port_3_speed_rx_mbytes"
     name := "Port 3 Receiving"
     native_unit_of_measurement := some MeasurementUnit.megabytesPerSecond
     device_class := some SensorDeviceClass.data_rate
     icon := some "mdi:download" },
   { key := "port_3_speed_tx_mbytes"
     name := "Port 3 Transferring"
     native_unit_of_measurement := some MeasurementUnit.megabytesPerSecond
     device_class := some SensorDeviceClass.data_rate
     icon := some "mdi:upload" },
   { key := "port_3_speed_io_mbytes"
     name := "Port 3 IO"
     native_unit_of_measurement := some MeasurementUnit.megabytesPerSecond
     device_class := some SensorDeviceClass.data_rate
     icon := some "mdi:swap-vertical" },
   { key := "port_4_traffic_rx_mbytes"
     name := "Port 4 Traffic Received"
     native_unit_of_measurement := some MeasurementUnit.megabytes
     device_class := some SensorDeviceClass.data_size
     icon := some "mdi:download" },
   { key := "port_4_traffic_tx_mbytes"
     name := "Port 4 Traffic Transferred"
     native_unit_of_measurement := some MeasurementUnit.megabytes
     device_class := some SensorDeviceClass.data_size
     icon := some "mdi:upload" },
   { key := "port_4_speed_rx_mbytes"
     name := "Port 4 Receiving"
     native_unit_of_measurement := some MeasurementUnit.megabytesPerSecond
     device_class := some SensorDeviceClass.data_rate
     icon := some "mdi:download" },
   { key := "port_4_speed_tx_mbytes"
     name := "Port 4 Transferring"
     native_unit_of_measurement := some MeasurementUnit.megabytesPerSecond
     device_class := some SensorDeviceClass.data_rate
     icon := some "mdi:upload" },
   { key := "port_4_speed_io_mbytes"
     name := "Port 4 IO"
     native_unit_of_measurement := some MeasurementUnit.megabytesPerSecond
     device_class := some SensorDeviceClass.data_rate
     icon := some "mdi:swap-vertical" },
   { key := "port_5_traffic_rx_mbytes"
     name := "Port 5 Traffic Received"
     native_unit_of_measurement := some MeasurementUnit.megabytes
     device_class := some SensorDeviceClass.data_size
     icon := some "mdi:download" },
   { key := "port_5_traffic_tx_mbytes"
     name := "Port 5 Traffic Transferred"
     native_unit_of_measurement := some MeasurementUnit.megabytes
     device_class := some SensorDeviceClass.data_size
     icon := some "mdi:upload" },
   { key := "port_5_speed_rx_mbytes"
     name := "Port 5 Receiving"
     native_unit_of_measurement := some MeasurementUnit.megabytesPerSecond
     device_class := some SensorDeviceClass.data_rate
     icon := some "mdi:download" },
   { key := "port_5_speed_tx_mbytes"
     name := "Port 5 Transferring"
     native_unit_of_measurement := some MeasurementUnit.megabytesPerSecond
     device_class := some SensorDeviceClass.data_rate
     icon := some "mdi:upload" },
   { key := "port_5_speed_io_mbytes"
     name := "Port 5 IO"
     native_unit_of_measurement := some MeasurementUnit.megabytesPerSecond
     device_class := some SensorDeviceClass.data_rate
     icon := some "mdi:swap-vertical" },
   { key := "port_6_traffic_rx_mbytes"
     name := "Port 6 Traffic Received"
     native_unit_of_measurement := some MeasurementUnit.megabytes
     device_class := some SensorDeviceClass.data_size
     icon := some "mdi:download" },
   { key := "port_6_traffic_tx_mbytes"
     name := "Port 6 Traffic Transferred"
     native_unit_of_measurement := some MeasurementUnit.megabytes
     device_class := some SensorDeviceClass.data_size
     icon := some "mdi:upload" },
   { key := "port_6_speed_rx_mbytes"
     name := "Port 6 Receiving"
     native_unit_of_measurement := some MeasurementUnit.megabytesPerSecond
     device_class := some SensorDeviceClass.data_rate
     icon := some "mdi:download" },
   { key := "port_6_speed_tx_mbytes"
     name := "Port 6 Transferring"
     native_unit_of_measurement := some MeasurementUnit.megabytesPerSecond
     device_class := some SensorDeviceClass.data_rate
     icon := some "mdi:upload" },
   { key := "port_6_speed_io_mbytes"
     name := "Port 6 IO"
     native_unit_of_measurement := some MeasurementUnit.megabytesPerSecond
     device_class := some SensorDeviceClass.data_rate
     icon := some "mdi:swap-vertical" },
   { key := "port_7_traffic_rx_mbytes"
     name := "Port 7 Traffic Received"
     native_unit_of_measurement := some MeasurementUnit.megabytes
     device_class := some SensorDeviceClass.data_size
     icon := some "mdi:download" },
   { key := "port_7_traffic_tx_mbytes"
     name := "Port 7 Traffic Transferred"
     native_unit_of_measurement := some MeasurementUnit.megabytes
     device_class := some SensorDeviceClass.data_size
     icon := some "mdi:upload" },
   { key := "port_7_speed_rx_mbytes"
     name := "Port 7 Receiving"
     native_unit_of_measurement := some MeasurementUnit.megabytesPerSecond
     device_class := some SensorDeviceClass.data_rate
     icon := some "mdi:download" },
   { key := "port_7_speed_tx_mbytes"
     name := "Port 7 Transferring"
     native_unit_of_measurement := some MeasurementUnit.megabytesPerSecond
     device_class := some SensorDeviceClass.data_rate
     icon := some "mdi:upload" },
   { key := "port_7_speed_io_mbytes"
     name := "Port 7 IO"
     native_unit_of_measurement := some MeasurementUnit.megabytesPerSecond
     device_class := some SensorDeviceClass.data_rate
     icon := some "mdi:swap-vertical" },
   { key := "port_8_traffic_rx_mbytes"
     name := "Port 8 Traffic Received"
     native_unit_of_measurement := some MeasurementUnit.megabytes
     device_class := some SensorDeviceClass.data_size
     icon := some "mdi:download" },
   { key := "port_8_traffic_tx_mbytes"
     name := "Port 8 Traffic Transferred"
     native_unit_of_measurement := some MeasurementUnit.megabytes
     device_class := some SensorDeviceClass.data_size
     icon := some "mdi:upload" },
   { key := "port_8_speed_rx_mbytes"
     name := "Port 8 Receiving"
     native_unit_of_measurement := some MeasurementUnit.megabytesPerSecond
     device_class := some SensorDeviceClass.data_rate
     icon := some "mdi:download" },
   { key := "port_8_speed_tx_mbytes"
     name := "Port 8 Transferring"
     native_unit_of_measurement := some MeasurementUnit.megabytesPerSecond
     device_class := some SensorDeviceClass.data_rate
     icon := some "mdi:upload" },
   { key := "port_8_speed_io_mbytes"
     name := "Port 8 IO"
     native_unit_of_measurement := some MeasurementUnit.megabytesPerSecond
     device_class := some SensorDeviceClass.data_rate
     icon := some "mdi:swap-vertical" }]

/-- A polled data snapshot: the coordinator's key/value mapping (a Python
dict), modelled as an association list without duplicate keys assumed. -/
def Snap : Type := List (String × PyVal)

/-- Python `dict.get(key)`: the stored value, or `None` when the key is
absent. -/
def dictGet (m : Snap) (k : String) : PyVal :=
  match List.lookup k m with
  | some v => v
  | Option.none => PyVal.none

/-- The switch client object, queried at setup for structural facts. -/
structure HAGS108Switch where
  device_name : String
  unique_id : String
  SWITCH_PORTS : Nat

/-- The mutable fields of a `NetgearRouterSensorEntity`. -/
structure NetgearRouterSensorEntity where
  entity_description : NetgearSensorEntityDescription
  _name : String
  _unique_id : String
  _value : PyVal

/-- `async_update_device`: re-read the coordinator snapshot.  Unset snapshot:
return without touching the value.  Key missing (or stored as `None`, which
`dict.get` conflates with missing): clear the value and log at debug
severity.  Otherwise: store the extraction function applied to the value.
Returns the updated entity and the log lines emitted. -/
def NetgearRouterSensorEntity.async_update_device
    (e : NetgearRouterSensorEntity) (coordData : Option Snap) :
    NetgearRouterSensorEntity × List LogMsg :=
  match coordData with
  | Option.none => (e, [])
  | some m =>
    let data := dictGet m e.entity_description.key
    if data = PyVal.none then
      ({ e with _value := PyVal.none }, [LogMsg.debug e.entity_description.key])
    else
      ({ e with _value := e.entity_description.value data }, [])

/-- `NetgearRouterSensorEntity.__init__`: store the descriptor, derive the
display name and unique id from the switch identity and the descriptor, start
with a `None` value, then run `async_update_device` against the current
coordinator snapshot. -/
def NetgearRouterSensorEntity.init
    (coordData : Option Snap) (switch : HAGS108Switch)
    (entity_description : NetgearSensorEntityDescription) :
    NetgearRouterSensorEntity × List LogMsg :=
  let e : NetgearRouterSensorEntity :=
    { entity_description := entity_description
      _name := switch.device_name ++ " " ++ entity_description.name
      _unique_id := switch.unique_id ++ "-" ++ entity_description.key ++ "-"
        ++ natToStr entity_description.index
      _value := PyVal.none }
  e.async_update_device coordData

/-- The `native_value` property: the cached value. -/
def NetgearRouterSensorEntity.native_value (e : NetgearRouterSensorEntity) : PyVal :=
  e._value

/-- `async_added_to_hass`: when the coordinator snapshot is unset, restore
the last persisted sensor value if one exists; otherwise leave the entity
untouched.  `lastSensorData` models the result of
`async_get_last_sensor_data()` (its `native_value` when a record exists). -/
def NetgearRouterSensorEntity.async_added_to_hass
    (e : NetgearRouterSensorEntity) (coordData : Option Snap)
    (lastSensorData : Option PyVal) : NetgearRouterSensorEntity :=
  match coordData with
  | Option.none =>
    match lastSensorData with
    | some v => { e with _value := v }
    | Option.none => e
  | some _ => e

/-- The descriptor built inside `async_setup_entry`'s port loop from one
template entry and a port number: key and name formatted with the port,
unit/class/icon copied, all other fields left at their dataclass defaults. -/
def mkPortDescription (t : PortTemplateEntry) (port_nr : Nat) :
    NetgearSensorEntityDescription :=
  { key := t.keyFmt.format port_nr
    name := t.nameFmt.format port_nr
    native_unit_of_measurement := some t.native_unit_of_measurement
    device_class := some t.device_class
    icon := some t.icon }

/-- `async_setup_entry`: one entity per `DEVICE_SENSOR_TYPES` descriptor,
then for each port `1..SWITCH_PORTS` one entity per `PORT_TEMPLATE` entry
(the `PORT_SENSORS` loop is commented out in the source).  Returns the
entity list passed to `async_add_entities`. -/
def async_setup_entry (gs_switch : HAGS108Switch) (coordData : Option Snap) :
    List NetgearRouterSensorEntity :=
  (DEVICE_SENSOR_TYPES.map fun description =>
    (NetgearRouterSensorEntity.init coordData gs_switch description).1)
  ++ ((List.range gs_switch.SWITCH_PORTS).flatMap fun i =>
    PORT_TEMPLATE.map fun t =>
      (NetgearRouterSensorEntity.init coordData gs_switch
        (mkPortDescription t (i + 1))).1)

/-- The data-model invariant claimed for cached values: the cached value is
`None`, or the descriptor's extraction function applied to the snapshot's
value for the entity's key. -/
def cachedValueInvariant (e : NetgearRouterSensorEntity)
    (coordData : Option Snap) : Prop :=
  e._value = PyVal.none
    ∨ ∃ m v, coordData = some m
        ∧ List.lookup e.entity_description.key m = some v
        ∧ e._value = e.entity_description.value v

/-- A concrete switch used to evaluate the model on explicit inputs. -/
def sampleSwitch : HAGS108Switch :=
  { device_name := "GS108E", unique_id := "sw1", SWITCH_PORTS := 8 }

/-- A second concrete switch sharing `sampleSwitch`'s unique id. -/
def sampleSwitch2 : HAGS108Switch :=
  { device_name := "other name", unique_id := "sw1", SWITCH_PORTS := 0 }

/-- A concrete descriptor used to evaluate the model on explicit inputs. -/
def sampleDescription : NetgearSensorEntityDescription :=
  { key := "switch_ip", name := "IP Address" }

/-- A second concrete descriptor sharing `sampleDescription`'s key and index. -/
def sampleDescription2 : NetgearSensorEntityDescription :=
  { key := "switch_ip", name := "renamed" }

/-- A concrete entity state used to evaluate the refresh operation. -/
def sampleEntity : NetgearRouterSensorEntity :=
  { entity_description := sampleDescription
    _name := "GS108E IP Address"
    _unique_id := "sw1-switch_ip-0"
    _value := PyVal.int 9 }

/-- Numeric value of a decimal digit character. -/
def digitVal (c : Char) : Nat := c.toNat - 48

lemma digitVal_digitChar {d : Nat} (h : d < 10) : digitVal (digitChar d) = d := by
  interval_cases d <;> decide

lemma isDigit_digitChar {d : Nat} (h : d < 10) : (digitChar d).isDigit = true := by
  interval_cases d <;> decide

lemma foldl_natDecimalGo :
    ∀ (fuel m : Nat) (acc : List Char), m < fuel →
      List.foldl (fun a c => 10 * a + digitVal c) 0 (natDecimalGo fuel m acc)
        = List.foldl (fun a c => 10 * a + digitVal c) m acc := by
  intro fuel
  induction fuel with
  | zero => intro m acc h; omega
  | succ fuel ih =>
    intro m acc h
    by_cases h10 : m < 10
    · rw [show natDecimalGo (fuel + 1) m acc = digitChar m :: acc by
        simp [natDecimalGo, h10]]
      rw [List.foldl_cons, digitVal_digitChar h10, Nat.mul_zero, Nat.zero_add]
    · have hdiv : m / 10 < fuel := by
        have := Nat.div_lt_self (by omega : 0 < m) (by omega : 1 < 10)
        omega
      rw [show natDecimalGo (fuel + 1) m acc
            = natDecimalGo fuel (m / 10) (digitChar (m % 10) :: acc) by
          simp [natDecimalGo, h10]]
      rw [ih _ _ hdiv, List.foldl_cons,
        digitVal_digitChar (Nat.mod_lt m (by omega)), Nat.div_add_mod]

lemma natDecimal_val (m : Nat) :
    List.foldl (fun a c => 10 * a + digitVal c) 0 (natDecimal m) = m := by
  have h := foldl_natDecimalGo (m + 1) m [] (Nat.lt_succ_self m)
  simpa [natDecimal] using h

lemma natDecimal_injective : Function.Injective natDecimal := by
  intro a b h
  have ha := natDecimal_val a
  rw [h, natDecimal_val] at ha
  exact ha.symm

lemma natToStr_injective : Function.Injective natToStr := by
  intro a b h
  exact natDecimal_injective (congrArg String.data h)

lemma mem_natDecimalGo_isDigit :
    ∀ (fuel m : Nat) (acc : List Char), (∀ c ∈ acc, c.isDigit = true) →
      ∀ c ∈ natDecimalGo fuel m acc, c.isDigit = true := by
  intro fuel
  induction fuel with
  | zero => intro m acc hacc; simpa [natDecimalGo] using hacc
  | succ fuel ih =>
    intro m acc hacc c hc
    by_cases h10 : m < 10
    · rw [show natDecimalGo (fuel + 1) m acc = digitChar m :: acc by
        simp [natDecimalGo, h10]] at hc
      rcases List.mem_cons.mp hc with rfl | hc
      · exact isDigit_digitChar h10
      · exact hacc _ hc
    · rw [show natDecimalGo (fuel + 1) m acc
            = natDecimalGo fuel (m / 10) (digitChar (m % 10) :: acc) by
          simp [natDecimalGo, h10]] at hc
      refine ih _ _ ?_ c hc
      intro x hx
      rcases List.mem_cons.mp hx with rfl | hx
      · exact isDigit_digitChar (Nat.mod_lt m (by omega))
      · exact hacc _ hx

lemma mem_natDecimal_isDigit (m : Nat) : ∀ c ∈ natDecimal m, c.isDigit = true :=
  mem_natDecimalGo_isDigit (m + 1) m [] (fun c hc => absurd hc (List.not_mem_nil c))

lemma digits_append_inj :
    ∀ (a₁ a₂ b₁ b₂ : List Char),
      (∀ c ∈ a₁, c.isDigit = true) → (∀ c ∈ a₂, c.isDigit = true) →
      (∀ c, b₁.head? = some c → c.isDigit = false) →
      (∀ c, b₂.head? = some c → c.isDigit = false) →
      a₁ ++ b₁ = a₂ ++ b₂ → a₁ = a₂ ∧ b₁ = b₂ := by
  intro a₁
  induction a₁ with
  | nil =>
    intro a₂ b₁ b₂ _ ha₂ hb₁ _ h
    cases a₂ with
    | nil => exact ⟨rfl, h⟩
    | cons c t =>
      exfalso
      have hd : b₁.head? = some c := by
        rw [List.nil_append] at h
        rw [h]
        rfl
      have h1 := hb₁ c hd
      have h2 := ha₂ c (List.mem_cons_self c t)
      rw [h2] at h1
      cases h1
  | cons c t ih =>
    intro a₂ b₁ b₂ ha₁ ha₂ hb₁ hb₂ h
    cases a₂ with
    | nil =>
      exfalso
      have hd : b₂.head? = some c := by
        rw [List.nil_append] at h
        rw [← h]
        rfl
      have h1 := hb₂ c hd
      have h2 := ha₁ c (List.mem_cons_self c t)
      rw [h2] at h1
      cases h1
    | cons c₂ t₂ =>
      rw [List.cons_append, List.cons_append] at h
      injection h with hc ht
      obtain ⟨h₁, h₂⟩ := ih t₂ b₁ b₂
        (fun x hx => ha₁ x (List.mem_cons_of_mem c hx))
        (fun x hx => ha₂ x (List.mem_cons_of_mem c₂ hx)) hb₁ hb₂ ht
      subst hc
      exact ⟨by rw [h₁], h₂⟩

lemma string_append_cancel_left {s t₁ t₂ : String} (h : s ++ t₁ = s ++ t₂) :
    t₁ = t₂ := by
  apply String.ext
  have hd := congrArg String.data h
  rw [String.data_append, String.data_append] at hd
  exact List.append_cancel_left hd

lemma natToStr_append_inj {s₁ s₂ : String} {c₁ c₂ : Char} {p q : Nat}
    (h₁ : s₁.data.head? = some c₁) (h₂ : s₂.data.head? = some c₂)
    (hc₁ : c₁.isDigit = false) (hc₂ : c₂.isDigit = false)
    (h : natToStr p ++ s₁ = natToStr q ++ s₂) : p = q ∧ s₁ = s₂ := by
  have hd := congrArg String.data h
  rw [String.data_append, String.data_append] at hd
  have hd' : natDecimal p ++ s₁.data = natDecimal q ++ s₂.data := hd
  obtain ⟨ha, hb⟩ := digits_append_inj (natDecimal p) (natDecimal q) s₁.data s₂.data
    (mem_natDecimal_isDigit p) (mem_natDecimal_isDigit q)
    (fun c hc => by rw [h₁] at hc; exact Option.some.inj hc ▸ hc₁)
    (fun c hc => by rw [h₂] at hc; exact Option.some.inj hc ▸ hc₂) hd'
  exact ⟨natDecimal_injective ha, String.ext hb⟩

lemma template_pre {t : PortTemplateEntry} (h : t ∈ PORT_TEMPLATE) :
    t.keyFmt.pre = "port_" := by
  fin_cases h <;> rfl

lemma template_post_head {t : PortTemplateEntry} (h : t ∈ PORT_TEMPLATE) :
    t.keyFmt.post.data.head? = some (Char.mk 95 (by decide))
      ∧ (Char.mk 95 (by decide)).isDigit = false := by
  fin_cases h <;> exact ⟨by decide, by decide⟩

lemma format_post_inj {f₁ f₂ : Fmt} (p : Nat) (h : f₁.format p = f₂.format p)
    (hpre : f₁.pre = f₂.pre) : f₁.post = f₂.post := by
  unfold Fmt.format at h
  rw [hpre, String.append_assoc, String.append_assoc] at h
  exact string_append_cancel_left (string_append_cancel_left h)

lemma portKey_eq_port {t₁ t₂ : PortTemplateEntry} (h₁ : t₁ ∈ PORT_TEMPLATE)
    (h₂ : t₂ ∈ PORT_TEMPLATE) {p q : Nat}
    (h : t₁.keyFmt.format p = t₂.keyFmt.format q) : p = q := by
  unfold Fmt.format at h
  rw [template_pre h₁, template_pre h₂, String.append_assoc,
    String.append_assoc] at h
  have h' := string_append_cancel_left h
  obtain ⟨hc₁, hd⟩ := template_post_head h₁
  obtain ⟨hc₂, _⟩ := template_post_head h₂
  exact (natToStr_append_inj hc₁ hc₂ hd hd h').1

lemma portKey_head {t : PortTemplateEntry} (h : t ∈ PORT_TEMPLATE) (p : Nat) :
    (t.keyFmt.format p).data.head? = some (Char.mk 112 (by decide)) := by
  unfold Fmt.format
  rw [template_pre h, String.data_append, String.data_append]
  rfl

lemma deviceKey_ne_portKey {d : NetgearSensorEntityDescription}
    (hd : d ∈ DEVICE_SENSOR_TYPES) {t : PortTemplateEntry}
    (ht : t ∈ PORT_TEMPLATE) (p : Nat) : d.key ≠ t.keyFmt.format p := by
  intro h
  have hh : d.key.data.head? = some (Char.mk 112 (by decide)) := by
    rw [h]
    exact portKey_head ht p
  fin_cases hd <;> exact absurd hh (by decide)

lemma portKeys_nodup (p : Nat) :
    (PORT_TEMPLATE.map fun t => t.keyFmt.format p).Nodup := by
  refine List.Nodup.map_on ?_ (by decide)
  intro t₁ h₁ t₂ h₂ h
  fin_cases h₁ <;> fin_cases h₂ <;>
    first
      | rfl
      | exact absurd (format_post_inj p h rfl) (by decide)

lemma init_entity_description (coordData : Option Snap) (sw : HAGS108Switch)
    (d : NetgearSensorEntityDescription) :
    (NetgearRouterSensorEntity.init coordData sw d).1.entity_description = d := by
  unfold NetgearRouterSensorEntity.init NetgearRouterSensorEntity.async_update_device
  cases coordData with
  | none => rfl
  | some m =>
    dsimp only
    split <;> rfl

lemma setup_descriptions (sw : HAGS108Switch) (coordData : Option Snap) :
    (async_setup_entry sw coordData).map (fun e => e.entity_description)
      = DEVICE_SENSOR_TYPES
        ++ (List.range sw.SWITCH_PORTS).flatMap
            (fun i => PORT_TEMPLATE.map fun t => mkPortDescription t (i + 1)) := by
  simp [async_setup_entry, List.map_append, List.map_flatMap, List.map_map,
    Function.comp_def, init_entity_description]

lemma flatMap_range_length {α : Type} (f : Nat → List α) (k : Nat)
    (hf : ∀ i, (f i).length = k) :
    ∀ N, ((List.range N).flatMap f).length = k * N := by
  intro N
  induction N with
  | zero => rfl
  | succ n ih =>
    rw [List.range_succ, List.flatMap_append, List.length_append, ih]
    simp [hf, Nat.mul_succ]

lemma setup_keys (sw : HAGS108Switch) (coordData : Option Snap) :
    (async_setup_entry sw coordData).map (fun e => e.entity_description.key)
      = DEVICE_SENSOR_TYPES.map (fun d => d.key)
        ++ (List.range sw.SWITCH_PORTS).flatMap
            (fun i => PORT_TEMPLATE.map fun t => t.keyFmt.format (i + 1)) := by
  simp [async_setup_entry, List.map_append, List.map_flatMap, List.map_map,
    Function.comp_def, init_entity_description, mkPortDescription]

lemma setup_length (sw : HAGS108Switch) (coordData : Option Snap) :
    (async_setup_entry sw coordData).length = 6 + 5 * sw.SWITCH_PORTS := by
  have h := congrArg List.length (setup_descriptions sw coordData)
  rw [List.length_map, List.length_append] at h
  rw [h, flatMap_range_length _ 5 (fun i => by rw [List.length_map]; rfl)
    sw.SWITCH_PORTS]
  rfl

lemma setup_keys_nodup (sw : HAGS108Switch) (coordData : Option Snap) :
    ((async_setup_entry sw coordData).map
      (fun e => e.entity_description.key)).Nodup := by
  rw [setup_keys, List.nodup_append]
  refine ⟨by decide, ?_, ?_⟩
  · rw [List.nodup_flatMap]
    constructor
    · intro i _
      exact portKeys_nodup (i + 1)
    · have hp : List.Pairwise (· < ·) (List.range sw.SWITCH_PORTS) :=
        List.pairwise_lt_range _
      refine hp.imp ?_
      intro a b hab
      simp only [Function.onFun]
      intro x hxa hxb
      obtain ⟨t₁, ht₁, rfl⟩ := List.mem_map.mp hxa
      obtain ⟨t₂, ht₂, hx⟩ := List.mem_map.mp hxb
      have hba := portKey_eq_port ht₂ ht₁ hx
      omega
  · intro x hxd hxp
    obtain ⟨d, hd, rfl⟩ := List.mem_map.mp hxd
    obtain ⟨i, _, hxi⟩ := List.mem_flatMap.mp hxp
    obtain ⟨t, ht, hx⟩ := List.mem_map.mp hxi
    exact deviceKey_ne_portKey hd ht (i + 1) hx.symm

lemma init_unique_id (coordData : Option Snap) (sw : HAGS108Switch)
    (d : NetgearSensorEntityDescription) :
    (NetgearRouterSensorEntity.init coordData sw d).1._unique_id
      = sw.unique_id ++ "-" ++ d.key ++ "-" ++ natToStr d.index := by
  unfold NetgearRouterSensorEntity.init NetgearRouterSensorEntity.async_update_device
  cases coordData with
  | none => rfl
  | some m =>
    dsimp only
    split <;> rfl

lemma refresh_invariant_core (e : NetgearRouterSensorEntity) (m : Snap) :
    (e.async_update_device (some m)).1._value = PyVal.none
      ∨ ∃ v, List.lookup e.entity_description.key m = some v
          ∧ (e.async_update_device (some m)).1._value
            = e.entity_description.value v := by
  unfold NetgearRouterSensorEntity.async_update_device
  dsimp only
  by_cases h : dictGet m e.entity_description.key = PyVal.none
  · rw [if_pos h]
    exact Or.inl rfl
  · rw [if_neg h]
    refine Or.inr ⟨dictGet m e.entity_description.key, ?_, rfl⟩
    unfold dictGet at h ⊢
    cases hl : List.lookup e.entity_description.key m with
    | none => rw [hl] at h; exact absurd rfl h
    | some v => rfl

lemma refresh_description (e : NetgearRouterSensorEntity) (coordData : Option Snap) :
    (e.async_update_device coordData).1.entity_description
      = e.entity_description := by
  unfold NetgearRouterSensorEntity.async_update_device
  cases coordData with
  | none => rfl
  | some m =>
    dsimp only
    split <;> rfl

/-- C1: for every port count, `async_setup_entry` instantiates exactly the six
fixed device-level descriptors followed by five template-generated descriptors
for each port 1..N (so 6 + 5N entities), with pairwise-distinct descriptor
keys; nothing is instantiated from `PORT_SENSORS` or `SENSOR_TYPES`. -/
theorem async_setup_entry_catalog (sw : HAGS108Switch) (coordData : Option Snap) :
    (async_setup_entry sw coordData).map (fun e => e.entity_description)
        = DEVICE_SENSOR_TYPES
          ++ (List.range sw.SWITCH_PORTS).flatMap
              (fun i => PORT_TEMPLATE.map fun t => mkPortDescription t (i + 1))
      ∧ (async_setup_entry sw coordData).length = 6 + 5 * sw.SWITCH_PORTS
      ∧ ((async_setup_entry sw coordData).map
          (fun e => e.entity_description.key)).Nodup :=
  ⟨setup_descriptions sw coordData, setup_length sw coordData,
    setup_keys_nodup sw coordData⟩

/-- C2: refreshing against a set snapshot that lacks the entity's key ends
with the cached value cleared to `None` and a single debug-severity log line,
with no exception (the operation returns normally). -/
theorem refresh_missing_key_clears_value (e : NetgearRouterSensorEntity)
    (m : Snap) (h : List.lookup e.entity_description.key m = Option.none) :
    (e.async_update_device (some m)).1._value = PyVal.none
      ∧ (e.async_update_device (some m)).2
        = [LogMsg.debug e.entity_description.key] := by
  constructor <;>
    simp [NetgearRouterSensorEntity.async_update_device, dictGet, h]

theorem refresh_missing_key_clears_value_witness :
    List.lookup sampleEntity.entity_description.key [("other", PyVal.int 3)]
        = Option.none
      ∧ ((sampleEntity.async_update_device
            (some [("other", PyVal.int 3)])).1._value = PyVal.none
        ∧ (sampleEntity.async_update_device (some [("other", PyVal.int 3)])).2
            = [LogMsg.debug sampleEntity.entity_description.key]) :=
  ⟨by decide, refresh_missing_key_clears_value _ _ (by decide)⟩

/-- C3: refreshing against a set snapshot that maps the entity's key to a
(non-null) value V ends with the cached value equal to the descriptor's
extraction function applied to V. -/
theorem refresh_present_key_extracts (e : NetgearRouterSensorEntity)
    (m : Snap) (v : PyVal)
    (hv : List.lookup e.entity_description.key m = some v)
    (hne : v ≠ PyVal.none) :
    (e.async_update_device (some m)).1._value = e.entity_description.value v := by
  simp [NetgearRouterSensorEntity.async_update_device, dictGet, hv, hne]

theorem refresh_present_key_extracts_witness :
    List.lookup sampleEntity.entity_description.key
        [("switch_ip", PyVal.str "10.0.0.2")] = some (PyVal.str "10.0.0.2")
      ∧ PyVal.str "10.0.0.2" ≠ PyVal.none
      ∧ (sampleEntity.async_update_device
          (some [("switch_ip", PyVal.str "10.0.0.2")])).1._value
        = sampleEntity.entity_description.value (PyVal.str "10.0.0.2") :=
  ⟨by decide, by decide,
    refresh_present_key_extracts _ _ _ (by decide) (by decide)⟩

/-- C4: refreshing while the coordinator snapshot is unset leaves the cached
value exactly as it was before the call. -/
theorem refresh_unset_snapshot_noop (e : NetgearRouterSensorEntity) :
    (e.async_update_device Option.none).1._value = e._value :=
  rfl

/-- C5: an entity constructed while the snapshot is unset, after the attach
step restores a persisted value P, reports P as its `native_value`, and still
reports P after refreshes that run before the first real snapshot; when the
snapshot is set at attach time the attach step changes nothing, so a restored
value never overwrites a live-snapshot value. -/
theorem restore_fallback_semantics (sw : HAGS108Switch)
    (d : NetgearSensorEntityDescription) (P : PyVal) :
    ((NetgearRouterSensorEntity.init Option.none sw d).1.async_added_to_hass
        Option.none (some P)).native_value = P
    ∧ ((((NetgearRouterSensorEntity.init Option.none sw d).1.async_added_to_hass
        Option.none (some P)).async_update_device Option.none).1.native_value = P)
    ∧ (∀ (e : NetgearRouterSensorEntity) (m : Snap) (last : Option PyVal),
        e.async_added_to_hass (some m) last = e) := by
  refine ⟨rfl, rfl, ?_⟩
  intro e m last
  rfl

/-- C6: the entity unique id is a deterministic function of the switch unique
id and the descriptor key and index: any two constructions agreeing on those
(regardless of snapshot or other fields) yield equal unique ids. -/
theorem unique_id_deterministic (sw₁ sw₂ : HAGS108Switch)
    (d₁ d₂ : NetgearSensorEntityDescription) (cd₁ cd₂ : Option Snap)
    (hu : sw₁.unique_id = sw₂.unique_id) (hk : d₁.key = d₂.key)
    (hi : d₁.index = d₂.index) :
    (NetgearRouterSensorEntity.init cd₁ sw₁ d₁).1._unique_id
      = (NetgearRouterSensorEntity.init cd₂ sw₂ d₂).1._unique_id := by
  rw [init_unique_id, init_unique_id, hu, hk, hi]

theorem unique_id_deterministic_witness :
    sampleSwitch.unique_id = sampleSwitch2.unique_id
    ∧ sampleDescription.key = sampleDescription2.key
    ∧ sampleDescription.index = sampleDescription2.index
    ∧ (NetgearRouterSensorEntity.init Option.none
          sampleSwitch sampleDescription).1._unique_id
      = (NetgearRouterSensorEntity.init (some [("switch_ip", PyVal.int 1)])
          sampleSwitch2 sampleDescription2).1._unique_id :=
  ⟨rfl, rfl, rfl,
    unique_id_deterministic _ _ _ _ _ _ rfl rfl rfl⟩

/-- C7 counterexample: after construction with the snapshot unset and an
attach step that restores a persisted value, the cached value is neither
`None` nor derived from the (unset) snapshot, so the claimed invariant fails
for the attach/restore operation. -/
theorem restored_value_breaks_invariant :
    ¬ cachedValueInvariant
      (((NetgearRouterSensorEntity.init Option.none sampleSwitch
          sampleDescription).1).async_added_to_hass
        Option.none (some (PyVal.str "10.0.0.2")))
      Option.none := by
  intro h
  rcases h with h | ⟨m, v, hm, _, _⟩
  · exact absurd h (by decide)
  · exact Option.noConfusion hm

/-- C7 amended: construction establishes the cached-value invariant with
respect to the snapshot it ran against, and so does every refresh against a
set snapshot; a refresh with the snapshot unset and an attach with the
snapshot set change nothing; an attach with the snapshot unset either leaves
the value unchanged or installs the restored persisted value. -/
theorem cachedValueInvariant_per_operation (sw : HAGS108Switch)
    (d : NetgearSensorEntityDescription) (coordData : Option Snap) :
    cachedValueInvariant (NetgearRouterSensorEntity.init coordData sw d).1 coordData
    ∧ (∀ (e : NetgearRouterSensorEntity) (m : Snap),
        cachedValueInvariant (e.async_update_device (some m)).1 (some m))
    ∧ (∀ e : NetgearRouterSensorEntity, (e.async_update_device Option.none).1 = e)
    ∧ (∀ (e : NetgearRouterSensorEntity) (m : Snap) (last : Option PyVal),
        e.async_added_to_hass (some m) last = e)
    ∧ (∀ (e : NetgearRouterSensorEntity) (last : Option PyVal),
        (e.async_added_to_hass Option.none last)._value = e._value
          ∨ ∃ P, last = some P
              ∧ (e.async_added_to_hass Option.none last)._value = P) := by
  have hrefresh : ∀ (e : NetgearRouterSensorEntity) (m : Snap),
      cachedValueInvariant (e.async_update_device (some m)).1 (some m) := by
    intro e m
    rcases refresh_invariant_core e m with h | ⟨v, hv, h⟩
    · exact Or.inl h
    · exact Or.inr ⟨m, v, rfl, by rw [refresh_description]; exact hv,
        by rw [refresh_description]; exact h⟩
  refine ⟨?_, hrefresh, fun e => rfl, fun e m last => rfl, ?_⟩
  · cases coordData with
    | none => exact Or.inl rfl
    | some m => exact hrefresh _ m
  · intro e last
    cases last with
    | none => exact Or.inl rfl
    | some P => exact Or.inr ⟨P, rfl, rfl⟩

/-- C8: the refresh operation is total and never raises: for every entity and
every snapshot it returns normally, and its behavior is exhaustively one of
three cases (unset snapshot: untouched; key missing or stored as null: value
cleared and one debug line logged; key present with a non-null value: value
set to the extraction of the snapshot value, nothing logged). -/
theorem refresh_total_cases (e : NetgearRouterSensorEntity)
    (coordData : Option Snap) :
    (coordData = Option.none ∧ e.async_update_device coordData = (e, []))
    ∨ (∃ m, coordData = some m
        ∧ dictGet m e.entity_description.key = PyVal.none
        ∧ e.async_update_device coordData
          = ({ e with _value := PyVal.none },
              [LogMsg.debug e.entity_description.key]))
    ∨ (∃ m v, coordData = some m
        ∧ dictGet m e.entity_description.key = v ∧ v ≠ PyVal.none
        ∧ e.async_update_device coordData
          = ({ e with _value := e.entity_description.value v }, [])) := by
  cases coordData with
  | none => exact Or.inl ⟨rfl, rfl⟩
  | some m =>
    by_cases h : dictGet m e.entity_description.key = PyVal.none
    · refine Or.inr (Or.inl ⟨m, rfl, h, ?_⟩)
      simp [NetgearRouterSensorEntity.async_update_device, h]
    · refine Or.inr (Or.inr ⟨m, dictGet m e.entity_description.key,
        rfl, rfl, h, ?_⟩)
      simp [NetgearRouterSensorEntity.async_update_device, h]

/-- C9 counterexample: the display names the template generator produces for
port 1 differ from the hand-written `PORT_SENSORS` names (the template reuses
the receive-rate name for the transmit-rate and combined-rate sensors), so
the five generated descriptors do not all agree with the hand-written list. -/
theorem port_sensors_name_mismatch :
    (PORT_TEMPLATE.map fun t => (mkPortDescription t 1).name)
      ≠ ((PORT_SENSORS.take 5).map fun d => d.name) := by
  decide

/-- C9 amended: for each port 1..8, the five template-generated descriptors
agree with the corresponding five `PORT_SENSORS` entries in key (in the same
order), unit, device class, icon and entity category, and in display name for
the first three (received bytes, transmitted bytes, receive rate); the
template instead reuses the receive-rate display name for the transmit-rate
and combined-rate sensors, where the hand-written list uses distinct names. -/
theorem template_matches_port_sensors (p : Nat) (h1 : 1 ≤ p) (h8 : p ≤ 8) :
    ((PORT_TEMPLATE.map fun t => (mkPortDescription t p).key)
      = (((PORT_SENSORS.drop (5 * (p - 1))).take 5).map fun d => d.key))
    ∧ ((PORT_TEMPLATE.map fun t => (mkPortDescription t p).native_unit_of_measurement)
      = (((PORT_SENSORS.drop (5 * (p - 1))).take 5).map fun d =>
          d.native_unit_of_measurement))
    ∧ ((PORT_TEMPLATE.map fun t => (mkPortDescription t p).device_class)
      = (((PORT_SENSORS.drop (5 * (p - 1))).take 5).map fun d => d.device_class))
    ∧ ((PORT_TEMPLATE.map fun t => (mkPortDescription t p).icon)
      = (((PORT_SENSORS.drop (5 * (p - 1))).take 5).map fun d => d.icon))
    ∧ ((PORT_TEMPLATE.map fun t => (mkPortDescription t p).entity_category)
      = (((PORT_SENSORS.drop (5 * (p - 1))).take 5).map fun d => d.entity_category))
    ∧ ((PORT_TEMPLATE.take 3).map fun t => (mkPortDescription t p).name)
      = (((PORT_SENSORS.drop (5 * (p - 1))).take 3).map fun d => d.name) := by
  interval_cases p <;>
    exact ⟨by decide, by decide, by decide, by decide, by decide, by decide⟩

theorem template_matches_port_sensors_witness :
    (1 ≤ 1 ∧ (1 : Nat) ≤ 8)
    ∧ (((PORT_TEMPLATE.map fun t => (mkPortDescription t 1).key)
      = (((PORT_SENSORS.drop (5 * (1 - 1))).take 5).map fun d => d.key))
    ∧ ((PORT_TEMPLATE.map fun t => (mkPortDescription t 1).native_unit_of_measurement)
      = (((PORT_SENSORS.drop (5 * (1 - 1))).take 5).map fun d =>
          d.native_unit_of_measurement))
    ∧ ((PORT_TEMPLATE.map fun t => (mkPortDescription t 1).device_class)
      = (((PORT_SENSORS.drop (5 * (1 - 1))).take 5).map fun d => d.device_class))
    ∧ ((PORT_TEMPLATE.map fun t => (mkPortDescription t 1).icon)
      = (((PORT_SENSORS.drop (5 * (1 - 1))).take 5).map fun d => d.icon))
    ∧ ((PORT_TEMPLATE.map fun t => (mkPortDescription t 1).entity_category)
      = (((PORT_SENSORS.drop (5 * (1 - 1))).take 5).map fun d => d.entity_category))
    ∧ ((PORT_TEMPLATE.take 3).map fun t => (mkPortDescription t 1).name)
      = (((PORT_SENSORS.drop (5 * (1 - 1))).take 3).map fun d => d.name)) :=
  ⟨⟨by decide, by decide⟩,
    template_matches_port_sensors 1 (by decide) (by decide)⟩

/-- C10: when the snapshot stores `None` under the entity's key, refresh
clears the cached value and logs at debug severity, and its complete result
(value and log) coincides with the result for a snapshot missing the key, so
a present-but-null value is indistinguishable from a missing key and the
extraction function is never applied to a null snapshot value. -/
theorem present_null_like_missing (e : NetgearRouterSensorEntity)
    (m m' : Snap)
    (h : List.lookup e.entity_description.key m = some PyVal.none)
    (h' : List.lookup e.entity_description.key m' = Option.none) :
    e.async_update_device (some m)
      = ({ e with _value := PyVal.none },
          [LogMsg.debug e.entity_description.key])
    ∧ e.async_update_device (some m) = e.async_update_device (some m') := by
  have hm : e.async_update_device (some m)
      = ({ e with _value := PyVal.none },
          [LogMsg.debug e.entity_description.key]) := by
    simp [NetgearRouterSensorEntity.async_update_device, dictGet, h]
  have hm' : e.async_update_device (some m')
      = ({ e with _value := PyVal.none },
          [LogMsg.debug e.entity_description.key]) := by
    simp [NetgearRouterSensorEntity.async_update_device, dictGet, h']
  exact ⟨hm, hm.trans hm'.symm⟩

theorem present_null_like_missing_witness :
    List.lookup sampleEntity.entity_description.key
        [("switch_ip", PyVal.none)] = some PyVal.none
    ∧ List.lookup sampleEntity.entity_description.key ([] : Snap) = Option.none
    ∧ (sampleEntity.async_update_device (some [("switch_ip", PyVal.none)])
        = ({ sampleEntity with _value := PyVal.none },
            [LogMsg.debug sampleEntity.entity_description.key])
      ∧ sampleEntity.async_update_device (some [("switch_ip", PyVal.none)])
        = sampleEntity.async_update_device (some ([] : Snap))) :=
  ⟨by decide, by decide,
    present_null_like_missing _ _ _ (by decide) (by decide)⟩
